import Mathlib

/-!
Shallow embedding of the push/delivery core of the edgeone-webhook-pusher
repository: the WeChat service (token cache, delivery client, error table),
the push fan-out engine, the message-history store, and the webhook route
handler.  Definitions are translated from the TypeScript sources; timestamps
are modelled as integers (epoch milliseconds), JavaScript truthiness of
optional strings and numbers is made explicit, and asynchronous collaborators
(KV reads, the remote HTTP provider) are passed in as explicit oracles or
state so that every function is a pure, executable Lean definition.
-/

namespace Pusher

/-- JavaScript truthiness of an optional string: absent and empty are falsy. -/
def truthyStr : Option String → Bool
  | none => false
  | some s => s ≠ ""

/-- JavaScript truthiness of an optional integer: absent and zero are falsy. -/
def truthyInt : Option Int → Bool
  | none => false
  | some n => n ≠ 0

/-- Template-string rendering of an optional integer, JS renders absent as undefined. -/
def showOptInt : Option Int → String
  | none => "undefined"
  | some n => toString n

/-- Template-string rendering of an optional string, JS renders absent as undefined. -/
def showOptStr : Option String → String
  | none => "undefined"
  | some s => s

-- ======================= Channel / App data model =======================

/-- WeChat channel credential config, from src/unnamed/part_003 (WeChatConfig). -/
structure WeChatConfig where
  appId : String
  appSecret : String
  msgToken : Option String
deriving DecidableEq, Repr

/-- Channel entity, from src/unnamed/part_003. -/
structure Channel where
  id : String
  name : String
  type : String
  config : WeChatConfig
  createdAt : String
  updatedAt : String
deriving DecidableEq, Repr

/-- Push mode of an App; the source constants PushModes are the strings
single and subscribe. -/
inductive PushMode where
  | single
  | subscribe
deriving DecidableEq, Repr

/-- Message type of an App; the source constants MessageTypes are the strings
normal and template. -/
inductive MessageType where
  | normal
  | template
deriving DecidableEq, Repr

/-- App entity: routing key and delivery policy. -/
structure App where
  id : String
  key : String
  name : String
  channelId : String
  pushMode : PushMode
  messageType : MessageType
  templateId : Option String
deriving DecidableEq, Repr

/-- A bound recipient (OpenID record). -/
structure OpenIdRecord where
  id : String
  appId : String
  openId : String
  nickname : Option String
deriving DecidableEq, Repr

-- ======================= WeChat service (src/unnamed/part_005) =======================

/-- Static WeChat error-code table WECHAT_ERROR_MESSAGES from part_005. -/
def wechatErrorMessages (errcode : Int) : Option String :=
  if errcode = 40001 then some "AppSecret 错误或 Access Token 无效"
  else if errcode = 40002 then some "无效的凭证类型"
  else if errcode = 40003 then some "OpenID 无效"
  else if errcode = 40013 then some "AppID 无效"
  else if errcode = 40125 then some "AppSecret 无效"
  else if errcode = 41001 then some "缺少 Access Token"
  else if errcode = 41002 then some "缺少 AppID"
  else if errcode = 41003 then some "缺少 AppSecret"
  else if errcode = 42001 then some "Access Token 已过期"
  else if errcode = 42002 then some "Refresh Token 已过期"
  else if errcode = 43001 then some "需要 GET 请求"
  else if errcode = 43002 then some "需要 POST 请求"
  else if errcode = 44001 then some "空白的多媒体文件"
  else if errcode = 45015 then some "用户未关注公众号"
  else if errcode = 48001 then some "API 未授权，请检查公众号权限"
  else if errcode = 50001 then some "用户未授权该 API"
  else if errcode = 61023 then some "Refresh Token 无效"
  else none

/-- getWeChatErrorMessage from part_005: table lookup with a generic fallback. -/
def getWeChatErrorMessage (errcode : Int) : String :=
  (wechatErrorMessages errcode).getD ("微信 API 错误: " ++ toString errcode)

/-- getAccessTokenCacheKey from part_005: derived solely from config.appId. -/
def getAccessTokenCacheKey (channel : Channel) : String :=
  "wechat_access_token:" ++ channel.config.appId

/-- getTokenStatusCacheKey from part_005. -/
def getTokenStatusCacheKey (channelId : String) : String :=
  "wechat_token_status:" ++ channelId

/-- Cached access token entry (TokenCache in part_005); times in epoch ms. -/
structure TokenCache where
  accessToken : String
  expiresAt : Int
deriving DecidableEq, Repr

/-- TokenStatus record from part_005. -/
structure TokenStatus where
  valid : Bool
  lastRefreshAt : Int
  lastRefreshSuccess : Bool
  expiresAt : Option Int
  error : Option String
  errorCode : Option Int
deriving DecidableEq, Repr

/-- Token-issuance endpoint response shape (WeChatResponse in part_005). -/
structure WeChatTokenResponse where
  errcode : Option Int
  errmsg : Option String
  access_token : Option String
  expires_in : Option Int
deriving DecidableEq, Repr

/-- Mutable state touched by getAccessToken: the process-memory token cache,
the KV tier of the token cache, and the persisted token statuses.  The two KV
families live under disjoint key formats (wechat_access_token: versus
wechat_token_status:), so they are modelled as separate typed maps. -/
structure WeChatState where
  memoryTokenCache : String → Option TokenCache
  kvTokenCache : String → Option TokenCache
  kvTokenStatus : String → Option TokenStatus

/-- Point update of a string-keyed map. -/
def setKey {α : Type} (m : String → Option α) (k : String) (v : α) :
    String → Option α :=
  fun k' => if k' = k then some v else m k'

/-- Result of getAccessToken together with the resulting state and whether the
remote token-issuance endpoint was contacted. -/
structure TokenFetchResult where
  token : Option String
  state : WeChatState
  usedFetch : Bool

/-- The memory-tier cache probe of getAccessToken: skipped under force
refresh, and an entry counts only while expiresAt is strictly later than
now. -/
def cacheHitMem (forceRefresh : Bool) (entry : Option TokenCache) (now : Int) :
    Option TokenCache :=
  if forceRefresh then none else
    match entry with
    | some c => if c.expiresAt > now then some c else none
    | none => none

/-- The KV-tier cache probe of getAccessToken: skipped under force refresh,
and an entry counts only with a truthy accessToken and expiresAt strictly
later than now. -/
def cacheHitKV (forceRefresh : Bool) (entry : Option TokenCache) (now : Int) :
    Option TokenCache :=
  if forceRefresh then none else
    match entry with
    | some c => if c.accessToken ≠ "" ∧ c.expiresAt > now then some c else none
    | none => none

/-- getAccessToken from part_005, lines 121-214.  The fetch of the
token-issuance endpoint is supplied as an oracle value: an exception message
(network-level failure) or the parsed JSON response.  now is Date.now in ms. -/
def getAccessToken (channel : Channel) (forceRefresh : Bool) (now : Int)
    (fetchTok : Except String WeChatTokenResponse) (st : WeChatState) :
    TokenFetchResult :=
  if channel.config.appId = "" ∨ channel.config.appSecret = "" then
    { token := none, state := st, usedFetch := false }
  else
    let cacheKey := getAccessTokenCacheKey channel
    match cacheHitMem forceRefresh (st.memoryTokenCache cacheKey) now with
    | some c => { token := some c.accessToken, state := st, usedFetch := false }
    | none =>
      match cacheHitKV forceRefresh (st.kvTokenCache cacheKey) now with
      | some c =>
        { token := some c.accessToken
          state := { st with memoryTokenCache := setKey st.memoryTokenCache cacheKey c }
          usedFetch := false }
      | none =>
        match fetchTok with
        | .error _ =>
          let status : TokenStatus :=
            { valid := false, lastRefreshAt := now, lastRefreshSuccess := false
              expiresAt := none, error := some "网络请求失败", errorCode := none }
          let stat' := setKey st.kvTokenStatus (getTokenStatusCacheKey channel.id) status
          let st' := { st with kvTokenStatus := stat' }
          { token := none, state := st', usedFetch := true }
        | .ok data =>
          if truthyInt data.errcode then
            let c := data.errcode.getD 0
            let status : TokenStatus :=
              { valid := false, lastRefreshAt := now, lastRefreshSuccess := false
                expiresAt := none, error := some (getWeChatErrorMessage c)
                errorCode := some c }
            let stat' := setKey st.kvTokenStatus (getTokenStatusCacheKey channel.id) status
            let st' := { st with kvTokenStatus := stat' }
            { token := none, state := st', usedFetch := true }
          else if ¬ truthyStr data.access_token ∨ ¬ truthyInt data.expires_in then
            let status : TokenStatus :=
              { valid := false, lastRefreshAt := now, lastRefreshSuccess := false
                expiresAt := none, error := some "获取 Access Token 失败"
                errorCode := none }
            let stat' := setKey st.kvTokenStatus (getTokenStatusCacheKey channel.id) status
            let st' := { st with kvTokenStatus := stat' }
            { token := none, state := st', usedFetch := true }
          else
            let tok := data.access_token.getD ""
            let e := data.expires_in.getD 0
            let expiresAt : Int := now + (e - 300) * 1000
            let tokenData : TokenCache := { accessToken := tok, expiresAt := expiresAt }
            let status : TokenStatus :=
              { valid := true, lastRefreshAt := now, lastRefreshSuccess := true
                expiresAt := some expiresAt, error := none, errorCode := none }
            { token := some tok
              state :=
                { memoryTokenCache := setKey st.memoryTokenCache cacheKey tokenData
                  kvTokenCache := setKey st.kvTokenCache cacheKey tokenData
                  kvTokenStatus :=
                    setKey st.kvTokenStatus (getTokenStatusCacheKey channel.id) status }
              usedFetch := true }

/-- Send-endpoint response shape (errcode / errmsg / msgid). -/
structure WeChatSendResponse where
  errcode : Option Int
  errmsg : Option String
  msgid : Option Int
deriving DecidableEq, Repr

/-- Result of one raw send-endpoint call, as returned by doSendCustomMessage
and doSendTemplateMessage in part_005. -/
structure RawSendResult where
  success : Bool
  msgId : Option String
  error : Option String
  errorCode : Option Int
deriving DecidableEq, Repr

/-- doSendCustomMessage from part_005, lines 408-442: one POST to the
custom-message endpoint, whose outcome (exception or parsed JSON) is the
oracle argument.  On errcode 0 the msgId renders msgid-or-empty; otherwise the
error string interpolates errcode and errmsg verbatim. -/
def doSendCustomMessage (accessToken openId content : String)
    (outcome : Except String WeChatSendResponse) : RawSendResult :=
  let _ := accessToken
  let _ := openId
  let _ := content
  match outcome with
  | .error e =>
    { success := false, msgId := none, error := some e, errorCode := none }
  | .ok data =>
    if data.errcode = some 0 then
      { success := true
        msgId := some (if truthyInt data.msgid then toString (data.msgid.getD 0) else "")
        error := none, errorCode := none }
    else
      { success := false, msgId := none
        error := some ("WeChat API error: " ++ showOptInt data.errcode ++ " - " ++
          showOptStr data.errmsg)
        errorCode := data.errcode }

/-- doSendTemplateMessage from part_005, lines 467-502.  Identical to the
custom variant except for the endpoint and that the success msgId renders the
raw msgid (undefined when absent, no or-empty guard). -/
def doSendTemplateMessage (accessToken openId templateId : String)
    (data : List (String × String))
    (outcome : Except String WeChatSendResponse) : RawSendResult :=
  let _ := accessToken
  let _ := openId
  let _ := templateId
  let _ := data
  match outcome with
  | .error e =>
    { success := false, msgId := none, error := some e, errorCode := none }
  | .ok resp =>
    if resp.errcode = some 0 then
      { success := true, msgId := some (showOptInt resp.msgid)
        error := none, errorCode := none }
    else
      { success := false, msgId := none
        error := some ("WeChat API error: " ++ showOptInt resp.errcode ++ " - " ++
          showOptStr resp.errmsg)
        errorCode := resp.errcode }

/-- Environment for one sendCustomMessage or sendTemplateMessage invocation:
the token returned by the initial getAccessToken call, the token returned by
the forced-refresh getAccessToken call, and the outcomes of the first and
(potential) second call to the send endpoint. -/
structure SendEnv where
  tokenFirst : Option String
  tokenRefresh : Option String
  resp1 : Except String WeChatSendResponse
  resp2 : Except String WeChatSendResponse

/-- The condition under which part_005 forces a token refresh after a failed
send: errorCode 40001 (invalid credential) or 42001 (token expired). -/
def retryCondition (r : RawSendResult) : Bool :=
  ¬ r.success ∧ (r.errorCode = some 40001 ∨ r.errorCode = some 42001)

/-- Trace of one delivery-client invocation: final result, number of calls to
the provider send endpoint, number of forced token refreshes performed. -/
structure SendTrace where
  result : RawSendResult
  sendCalls : Nat
  refreshes : Nat
deriving DecidableEq, Repr

/-- sendCustomMessage from part_005, lines 385-406: initial token, one send,
one forced refresh plus one retry only when the error code is 40001 or 42001
and the refresh yields a token. -/
def sendCustomMessage (env : SendEnv) (openId content : String) : SendTrace :=
  match env.tokenFirst with
  | none =>
    { result := { success := false, msgId := none
                  error := some "Failed to get access token", errorCode := none }
      sendCalls := 0, refreshes := 0 }
  | some tok =>
    let r1 := doSendCustomMessage tok openId content env.resp1
    if retryCondition r1 then
      match env.tokenRefresh with
      | some newTok =>
        { result := doSendCustomMessage newTok openId content env.resp2
          sendCalls := 2, refreshes := 1 }
      | none => { result := r1, sendCalls := 1, refreshes := 1 }
    else
      { result := r1, sendCalls := 1, refreshes := 0 }

/-- sendTemplateMessage from part_005, lines 444-465: same retry structure as
sendCustomMessage, around the template endpoint. -/
def sendTemplateMessage (env : SendEnv) (openId templateId : String)
    (data : List (String × String)) : SendTrace :=
  match env.tokenFirst with
  | none =>
    { result := { success := false, msgId := none
                  error := some "Failed to get access token", errorCode := none }
      sendCalls := 0, refreshes := 0 }
  | some tok =>
    let r1 := doSendTemplateMessage tok openId templateId data env.resp1
    if retryCondition r1 then
      match env.tokenRefresh with
      | some newTok =>
        { result := doSendTemplateMessage newTok openId templateId data env.resp2
          sendCalls := 2, refreshes := 1 }
      | none => { result := r1, sendCalls := 1, refreshes := 1 }
    else
      { result := r1, sendCalls := 1, refreshes := 0 }

-- ============ Message history service (src/node-functions/services/message.service.ts) ============

/-- One per-recipient delivery result. -/
structure DeliveryResult where
  openId : String
  success : Bool
  msgId : Option String
  error : Option String
deriving DecidableEq, Repr

/-- Message history record.  createdAt is modelled as an epoch-millisecond
integer; the source stores an ISO timestamp string whose Date ordering this
embeds. -/
structure Message where
  id : String
  direction : String
  type : String
  channelId : Option String
  appId : Option String
  openId : Option String
  title : String
  desp : Option String
  results : List DeliveryResult
  createdAt : Int
deriving DecidableEq, Repr

/-- The messages KV namespace, split into its two disjoint key families:
message bodies under msg: keys (indexed here by the message id) and id-list
indexes under msg_list / msg_channel: / msg_app / msg_openid: keys. -/
structure MsgStore where
  msgs : String → Option Message
  lists : String → Option (List String)

/-- Modelled from the spec: the key format of KVKeys.MESSAGE_APP is missing
from the sources (only its call sites appear); spec section 3 lists the
per-app message index alongside the per-channel msg_channel: and
per-recipient msg_openid: lists, so it follows the sibling key format. -/
def msgAppKey (appId : String) : String :=
  "msg_app:" ++ appId

/-- The read-modify-write bounded prepend used for every index list in
saveMessage: fetch (or empty), unshift the new id, truncate to the cap. -/
def updateList (lists : String → Option (List String)) (key msgId : String)
    (limit : Nat) : String → Option (List String) :=
  let list := (lists key).getD []
  setKey lists key ((msgId :: list).take limit)

/-- saveMessage from message.service.ts lines 42-86: write the body, then
update the global list (cap 10000) and, when the fields are set, the
per-channel (5000), per-app (5000) and per-recipient (1000) lists. -/
def saveMessage (st : MsgStore) (message : Message) : MsgStore :=
  let msgs' := setKey st.msgs message.id message
  let l1 := updateList st.lists "msg_list" message.id 10000
  let l2 :=
    if truthyStr message.channelId then
      updateList l1 ("msg_channel:" ++ message.channelId.getD "") message.id 5000
    else l1
  let l3 :=
    if truthyStr message.appId then
      updateList l2 (msgAppKey (message.appId.getD "")) message.id 5000
    else l2
  let l4 :=
    if truthyStr message.openId then
      updateList l3 ("msg_openid:" ++ message.openId.getD "") message.id 1000
    else l3
  { msgs := msgs', lists := l4 }

/-- get from message.service.ts lines 91-93. -/
def msgGet (st : MsgStore) (id : String) : Option Message :=
  st.msgs id

/-- delete from message.service.ts lines 218-224: absent record reports false
with no write; otherwise only the message body key is deleted. -/
def msgDelete (st : MsgStore) (id : String) : Bool × MsgStore :=
  match msgGet st id with
  | none => (false, st)
  | some _ =>
    (true, { st with msgs := fun k => if k = id then none else st.msgs k })

/-- Filter options of list.  startDate and endDate are modelled as epoch-ms
integers (present iff the source date string is truthy). -/
structure ListOptions where
  page : Nat
  pageSize : Nat
  channelId : Option String
  appId : Option String
  openId : Option String
  direction : Option String
  startDate : Option Int
  endDate : Option Int
deriving DecidableEq, Repr

/-- Paged result of list. -/
structure ListResult where
  messages : List Message
  total : Nat
  page : Nat
  pageSize : Nat
deriving DecidableEq, Repr

/-- Index selection at the top of list (message.service.ts lines 102-111):
recipient, then app, then channel, then the global list. -/
def selectIds (st : MsgStore) (o : ListOptions) : List String :=
  if truthyStr o.openId then
    (st.lists ("msg_openid:" ++ o.openId.getD "")).getD []
  else if truthyStr o.appId then
    (st.lists (msgAppKey (o.appId.getD ""))).getD []
  else if truthyStr o.channelId then
    (st.lists ("msg_channel:" ++ o.channelId.getD "")).getD []
  else
    (st.lists "msg_list").getD []

/-- The fast-path condition of list (message.service.ts line 114): no extra
filter beyond the dimension of the chosen index. -/
def fastPathCond (o : ListOptions) : Bool :=
  ¬ truthyStr o.direction ∧ o.startDate = none ∧ o.endDate = none ∧
    (¬ truthyStr o.channelId ∨ truthyStr o.openId ∨ truthyStr o.appId) ∧
    (¬ truthyStr o.appId ∨ truthyStr o.openId)

/-- list from message.service.ts lines 98-192.  On the fast path the chosen
index is paginated directly and each page id is fetched, silently dropping
ids whose body fetch returns null.  Otherwise all ids are fetched (the
source batches the same sequence of reads), remaining filters are applied in
memory, the result is sorted by createdAt descending and then paginated. -/
def msgList (st : MsgStore) (o : ListOptions) : ListResult :=
  let ids := selectIds st o
  if fastPathCond o then
    let total := ids.length
    let startIdx := (o.page - 1) * o.pageSize
    let pageIds := (ids.drop startIdx).take o.pageSize
    let messages := pageIds.filterMap st.msgs
    { messages := messages, total := total, page := o.page, pageSize := o.pageSize }
  else
    let allMessages : List Message := ids.filterMap st.msgs
    let f1 : List Message :=
      if truthyStr o.channelId ∧ ¬ truthyStr o.openId ∧ ¬ truthyStr o.appId then
        allMessages
      else if truthyStr o.channelId then
        allMessages.filter (fun m => m.channelId = o.channelId)
      else allMessages
    let f2 : List Message :=
      if truthyStr o.appId ∧ truthyStr o.openId then
        f1.filter (fun m => m.appId = o.appId)
      else f1
    let f3 : List Message :=
      if truthyStr o.direction then
        f2.filter (fun m => some m.direction = o.direction)
      else f2
    let f4 : List Message :=
      match o.startDate with
      | some s => f3.filter (fun m => s ≤ m.createdAt)
      | none => f3
    let f5 : List Message :=
      match o.endDate with
      | some e => f4.filter (fun m => m.createdAt ≤ e)
      | none => f4
    let sorted := f5.mergeSort (fun a b => b.createdAt ≤ a.createdAt)
    let total := f5.length
    let startIdx := (o.page - 1) * o.pageSize
    let messages := (sorted.drop startIdx).take o.pageSize
    { messages := messages, total := total, page := o.page, pageSize := o.pageSize }

-- ============ Push fan-out engine (src/node-functions/services/push.service.ts) ============

/-- PushMessageInput: title plus optional desp. -/
structure PushMessageInput where
  title : String
  desp : Option String
deriving DecidableEq, Repr

/-- PushResult returned by push.  The error field is optional in the
PushResult shape (and is asserted on by the repository property tests). -/
structure PushResult where
  pushId : String
  total : Nat
  success : Nat
  failed : Nat
  results : List DeliveryResult
  error : Option String
deriving DecidableEq, Repr

/-- Template payload built by push for template-message deliveries: fixed
field names first / keyword1 / remark with values from title and desp. -/
structure TemplateData where
  first : String
  keyword1 : String
  remark : String
deriving DecidableEq, Repr

/-- One invocation of the wechatService delivery client made by push. -/
inductive WeChatCall where
  | custom (channel : Channel) (openId : String) (content : String)
  | template (channel : Channel) (openId : String) (templateId : String)
      (data : TemplateData)
deriving DecidableEq, Repr

/-- The recipient openId a delivery-client invocation is addressed to. -/
def WeChatCall.target : WeChatCall → String
  | .custom _ o _ => o
  | .template _ o _ _ => o

/-- What the wechatService send functions return to push. -/
structure ClientSendResult where
  success : Bool
  msgId : Option String
  error : Option String
deriving DecidableEq, Repr

/-- Collaborators of push, as interfaces: App lookup by key, recipient
listing (in stored listing order), Channel lookup, and the two delivery
client functions, each of which may also throw (Except error). -/
structure PushEnv where
  getByKey : String → Option App
  listByApp : String → List OpenIdRecord
  getChannelById : String → Option Channel
  sendCustom : Channel → String → String → Except String ClientSendResult
  sendTemplate : Channel → String → String → TemplateData →
    Except String ClientSendResult

/-- The custom-message content built by push: title, joined with desp by a
blank line when desp is truthy (a present but empty desp counts as absent,
as in the truthiness test of the source). -/
def pushContent (message : PushMessageInput) : String :=
  if truthyStr message.desp then
    message.title ++ "\n\n" ++ message.desp.getD ""
  else message.title

/-- The template payload built by push: fixed field names first / keyword1 /
remark populated from title and desp. -/
def pushTemplateData (message : PushMessageInput) : TemplateData :=
  { first := message.title, keyword1 := message.desp.getD "", remark := "" }

/-- One per-target delivery step of push (lines 65-108): template message
when messageType is template and templateId is truthy, otherwise a custom
message with the content built by pushContent; an exception is caught into a
failed DeliveryResult. -/
def deliverOne (env : PushEnv) (app : App) (channel : Channel)
    (message : PushMessageInput) (r : OpenIdRecord) :
    DeliveryResult × WeChatCall :=
  if app.messageType = MessageType.template ∧ truthyStr app.templateId then
    match env.sendTemplate channel r.openId (app.templateId.getD "")
        (pushTemplateData message) with
    | .ok res =>
      ({ openId := r.openId, success := res.success, msgId := res.msgId
         error := res.error },
       WeChatCall.template channel r.openId (app.templateId.getD "")
         (pushTemplateData message))
    | .error e =>
      ({ openId := r.openId, success := false, msgId := none, error := some e },
       WeChatCall.template channel r.openId (app.templateId.getD "")
         (pushTemplateData message))
  else
    match env.sendCustom channel r.openId (pushContent message) with
    | .ok res =>
      ({ openId := r.openId, success := res.success, msgId := res.msgId
         error := res.error },
       WeChatCall.custom channel r.openId (pushContent message))
    | .error e =>
      ({ openId := r.openId, success := false, msgId := none, error := some e },
       WeChatCall.custom channel r.openId (pushContent message))

/-- Outcome of one push invocation: the PushResult, the message store after
any history write, and the trace of delivery-client invocations. -/
structure PushOutcome where
  result : PushResult
  store : MsgStore
  calls : List WeChatCall

/-- A zero-result PushResult as returned on the routing-failure paths of
push: no error field is set. -/
def zeroPushResult (pushId : String) : PushResult :=
  { pushId := pushId, total := 0, success := 0, failed := 0, results := []
    error := none }

/-- push from push.service.ts lines 23-138.  pushId and createdAt stand for
the generatePushId and now calls made before any validation.  Unknown key,
empty recipient list or missing channel return a zero-result PushResult with
no history write and no delivery-client call; otherwise the target set is the
first recipient (single) or all recipients (subscribe), one delivery runs per
target, the counts are aggregated and a history record carrying the full
results array is saved under the pushId before the result is returned. -/
def push (env : PushEnv) (st : MsgStore) (pushId : String) (createdAt : Int)
    (appKey : String) (message : PushMessageInput) : PushOutcome :=
  match env.getByKey appKey with
  | none => { result := zeroPushResult pushId, store := st, calls := [] }
  | some app =>
    let openIds := env.listByApp app.id
    match env.getChannelById app.channelId with
    | none => { result := zeroPushResult pushId, store := st, calls := [] }
    | some channel =>
      match openIds with
      | [] => { result := zeroPushResult pushId, store := st, calls := [] }
      | first :: rest =>
        let targetOpenIds :=
          if app.pushMode = PushMode.single then [first] else first :: rest
        let delivered := targetOpenIds.map (deliverOne env app channel message)
        let results := delivered.map Prod.fst
        let calls := delivered.map Prod.snd
        let successCount := (results.filter (fun r => r.success)).length
        let failedCount := (results.filter (fun r => !r.success)).length
        let messageRecord : Message :=
          { id := pushId, direction := "outbound", type := "push"
            channelId := some channel.id, appId := some app.id, openId := none
            title := message.title, desp := message.desp, results := results
            createdAt := createdAt }
        let st' := saveMessage st messageRecord
        { result :=
            { pushId := pushId, total := targetOpenIds.length
              success := successCount, failed := failedCount
              results := results, error := none }
          store := st', calls := calls }

-- ============ Webhook send route (src/unnamed/part_001, onRequest) ============

/-- ErrorCodes from shared/types.js (the module part_001 imports). -/
def errMISSING_TITLE : Nat := 40001
def errINVALID_PARAM : Nat := 40002
def errINVALID_CONFIG : Nat := 40003
def errKEY_NOT_FOUND : Nat := 40401
def errNO_SUBSCRIBERS : Nat := 40403
def errOPENID_NOT_FOUND : Nat := 40404
def errRATE_LIMIT_EXCEEDED : Nat := 42901
def errINTERNAL_ERROR : Nat := 50001

/-- ErrorMessages table from shared/types.js. -/
def errorMessages (code : Nat) : Option String :=
  if code = 40001 then some "Message title is required"
  else if code = 40002 then some "Invalid parameter"
  else if code = 40003 then some "Invalid configuration"
  else if code = 40101 then some "Invalid admin token"
  else if code = 40102 then some "Admin token is required"
  else if code = 40401 then some "SendKey or TopicKey not found"
  else if code = 40402 then some "Message not found"
  else if code = 40403 then some "Topic has no subscribers"
  else if code = 40404 then some "OpenID not found"
  else if code = 42901 then some "Rate limit exceeded"
  else if code = 50001 then some "Internal server error"
  else if code = 50002 then some "WeChat API error"
  else none

/-- Suffix test on strings by character lists; the library endsWith does not
reduce inside the kernel, so this executable equivalent backs the regex
anchor dot-send-end in extractSendKey. -/
def strEndsWith (s suf : String) : Bool :=
  decide (suf.data.length ≤ s.data.length) &&
    (s.data.drop (s.data.length - suf.data.length) == suf.data)

/-- The characters of a string that follow its last slash, or none when the
string has no slash. -/
def suffixAfterLastSlash : List Char → Option (List Char)
  | [] => none
  | c :: cs =>
    match suffixAfterLastSlash cs with
    | some suf => some suf
    | none => if c = '/' then some cs else none

/-- Longest run of non-slash characters at the front of a string. -/
def takeNonSlash : List Char → List Char
  | [] => []
  | c :: cs => if c = '/' then [] else c :: takeNonSlash cs

/-- First match of the pattern slash-send-slash followed by a nonempty
non-slash run, searched left to right as the regex engine does. -/
def slashSendMatch : List Char → Option (List Char)
  | [] => none
  | c :: cs =>
    if (c :: cs).take 6 = ['/', 's', 'e', 'n', 'd', '/'] then
      let seg := takeNonSlash ((c :: cs).drop 6)
      if seg ≠ [] then some seg else slashSendMatch cs
    else slashSendMatch cs

/-- extractSendKey from part_001, lines 56-70: a .send-suffixed final path
segment, else a segment following /send/. -/
def extractSendKey (pathname : String) : Option String :=
  let dotMatch : Option String :=
    if strEndsWith pathname ".send" then
      match suffixAfterLastSlash (pathname.dropRight 5).toList with
      | some suf => if suf ≠ [] then some (String.mk suf) else none
      | none => none
    else none
  match dotMatch with
  | some k => some k
  | none =>
    match slashSendMatch pathname.toList with
    | some seg => some (String.mk seg)
    | none => none

/-- getHttpStatus from part_001, lines 75-90; an absent error code falls to
the default branch. -/
def getHttpStatus (errorCode : Option Nat) : Nat :=
  match errorCode with
  | some c =>
    if c = errKEY_NOT_FOUND then 404
    else if c = errRATE_LIMIT_EXCEEDED then 429
    else if c = errMISSING_TITLE ∨ c = errINVALID_PARAM then 400
    else 500
  | none => 500

/-- What pushBySendKey returns to the route handler (PushResult typedef in
shared/types.js): pushId, a success flag, an optional msgId and an optional
error code. -/
structure SendKeyPushResult where
  pushId : String
  success : Bool
  msgId : Option String
  error : Option Nat
deriving DecidableEq, Repr

/-- One entry of the success payload results array: success flag and msgId. -/
structure SendResultItem where
  success : Bool
  msgId : Option String
deriving DecidableEq, Repr

/-- The data object of a successful webhook response. -/
structure SendOkData where
  pushId : String
  results : List SendResultItem
deriving DecidableEq, Repr

/-- HTTP response of the webhook route: the CORS-preflight empty 204, or a
JSON envelope with status, code, message and nullable data. -/
inductive WebhookResponse where
  | noContent
  | json (status : Nat) (code : Option Nat) (message : String)
      (data : Option SendOkData)
deriving DecidableEq, Repr

/-- errorResponse from part_001, lines 31-37: explicit message, else the
ErrorMessages entry, else Unknown error. -/
def webhookErrorResponse (status : Nat) (code : Option Nat)
    (message : Option String) : WebhookResponse :=
  let msg :=
    match message with
    | some m => m
    | none =>
      match code with
      | some c => (errorMessages c).getD "Unknown error"
      | none => "Unknown error"
  WebhookResponse.json status code msg none

/-- Inbound request as the handler sees it: method, pathname, query
parameters, and a JSON body that the handler never reads. -/
structure HttpRequest where
  method : String
  pathname : String
  queryTitle : Option String
  queryDesp : Option String
  bodyTitle : Option String
  bodyDesp : Option String
deriving DecidableEq, Repr

/-- onRequest from part_001, lines 95-153, with pushBySendKey supplied as an
oracle.  OPTIONS is answered 204; every method other than GET is answered
405; then the send key is extracted, the title validated, the push executed
and its result wrapped into the response envelope. -/
def onRequest (pushBySendKey : String → String → Option String → SendKeyPushResult)
    (request : HttpRequest) : WebhookResponse :=
  if request.method = "OPTIONS" then
    WebhookResponse.noContent
  else if request.method ≠ "GET" then
    webhookErrorResponse 405 (some errINVALID_PARAM)
      (some "Method not allowed. Use GET with query params.")
  else
    match extractSendKey request.pathname with
    | none =>
      webhookErrorResponse 400 (some errINVALID_PARAM) (some "Invalid URL format")
    | some sendKey =>
      if ¬ truthyStr request.queryTitle then
        webhookErrorResponse 400 (some errMISSING_TITLE) none
      else
        let result := pushBySendKey sendKey (request.queryTitle.getD "")
          request.queryDesp
        if ¬ result.success then
          webhookErrorResponse (getHttpStatus result.error) result.error none
        else
          WebhookResponse.json 200 (some 0) "success"
            (some { pushId := result.pushId
                    results := [{ success := result.success, msgId := result.msgId }] })

-- ============================== Helper lemmas ==============================

/-- Appending on the left of strings is cancellative. -/
theorem string_append_left_cancel (p a b : String) (h : p ++ a = p ++ b) :
    a = b := by
  have hd : (p ++ a).data = (p ++ b).data := congrArg String.data h
  simp only [String.data_append] at hd
  exact String.ext (List.append_cancel_left hd)

/-- Counting the complement of a filter is subtracting the filter count. -/
theorem length_filter_not_eq_sub {α : Type} (p : α → Bool) (l : List α) :
    (l.filter (fun a => !(p a))).length = l.length - (l.filter p).length := by
  induction l with
  | nil => rfl
  | cons x xs ih =>
    have hle := List.length_filter_le p xs
    by_cases hx : p x <;> simp [hx, ih] <;> omega

/-- filterMap over a pointwise-smaller partial map yields a sub-collection. -/
theorem mem_filterMap_of_le {α β : Type} {f g : α → Option β} {l : List α}
    (hfg : ∀ a x, f a = some x → g a = some x) :
    ∀ x, x ∈ l.filterMap f → x ∈ l.filterMap g := by
  intro x hx
  obtain ⟨a, ha, hfa⟩ := List.mem_filterMap.mp hx
  exact List.mem_filterMap.mpr ⟨a, ha, hfg a x hfa⟩

-- ============================== Claims ==============================

/-- C8: the token-cache key is a pure function of channel.config.appId: equal
appIds give the same key whatever the other Channel fields are, and distinct
appIds always give distinct keys. -/
theorem C8_cache_key_pure_function_of_appId :
    (∀ c₁ c₂ : Channel, c₁.config.appId = c₂.config.appId →
      getAccessTokenCacheKey c₁ = getAccessTokenCacheKey c₂) ∧
    (∀ c₁ c₂ : Channel, c₁.config.appId ≠ c₂.config.appId →
      getAccessTokenCacheKey c₁ ≠ getAccessTokenCacheKey c₂) := by
  constructor
  · intro c₁ c₂ h
    simp [getAccessTokenCacheKey, h]
  · intro c₁ c₂ h hk
    exact h (string_append_left_cancel _ _ _ hk)

/-- C8 witness: two Channels differing in every field except appId share the
key; changing only the appId separates the keys. -/
theorem C8_cache_key_witness :
    getAccessTokenCacheKey
        { id := "ch_1", name := "First", type := "wechat"
          config := { appId := "wx_shared", appSecret := "s1", msgToken := none }
          createdAt := "2024-01-01", updatedAt := "2024-01-02" } =
      getAccessTokenCacheKey
        { id := "ch_2", name := "Second", type := "wechat"
          config := { appId := "wx_shared", appSecret := "s2"
                      msgToken := some "t" }
          createdAt := "2024-02-01", updatedAt := "2024-02-02" } ∧
    getAccessTokenCacheKey
        { id := "ch_1", name := "First", type := "wechat"
          config := { appId := "wx_shared", appSecret := "s1", msgToken := none }
          createdAt := "2024-01-01", updatedAt := "2024-01-02" } ≠
      getAccessTokenCacheKey
        { id := "ch_1", name := "First", type := "wechat"
          config := { appId := "wx_other", appSecret := "s1", msgToken := none }
          createdAt := "2024-01-01", updatedAt := "2024-01-02" } :=
  ⟨C8_cache_key_pure_function_of_appId.1 _ _ rfl,
   C8_cache_key_pure_function_of_appId.2 _ _ (by decide)⟩

/-- C6 counterexample: for the provider error 45015 the error message the
delivery client returns is the verbatim errcode-errmsg interpolation, not the
static-table translation that the claim requires. -/
theorem C6_counterexample_delivery_error_message :
    (doSendCustomMessage "tok" "oid" "hello"
        (.ok { errcode := some 45015, errmsg := some "require subscribe"
               msgid := none })).error =
      some "WeChat API error: 45015 - require subscribe" ∧
    getWeChatErrorMessage 45015 = "用户未关注公众号" ∧
    (doSendCustomMessage "tok" "oid" "hello"
        (.ok { errcode := some 45015, errmsg := some "require subscribe"
               msgid := none })).error ≠
      some (getWeChatErrorMessage 45015) := by
  refine ⟨rfl, rfl, ?_⟩
  decide

/-- C6 (amended): getWeChatErrorMessage translates provider error codes by
the static table, with unknown codes falling back to the generic message
that interpolates the code; the result returned by the delivery client
instead carries the verbatim interpolation of the provider errcode and errmsg, for
both the custom and the template endpoint. -/
theorem C6_error_message_translation_amended :
    (∀ c m, wechatErrorMessages c = some m → getWeChatErrorMessage c = m) ∧
    (∀ c, wechatErrorMessages c = none →
      getWeChatErrorMessage c = "微信 API 错误: " ++ toString c) ∧
    (∀ tok oid content (data : WeChatSendResponse), data.errcode ≠ some 0 →
      (doSendCustomMessage tok oid content (.ok data)).error =
        some ("WeChat API error: " ++ showOptInt data.errcode ++ " - " ++
          showOptStr data.errmsg)) ∧
    (∀ tok oid tid payload (data : WeChatSendResponse), data.errcode ≠ some 0 →
      (doSendTemplateMessage tok oid tid payload (.ok data)).error =
        some ("WeChat API error: " ++ showOptInt data.errcode ++ " - " ++
          showOptStr data.errmsg)) := by
  refine ⟨?_, ?_, ?_, ?_⟩
  · intro c m h
    simp [getWeChatErrorMessage, h]
  · intro c h
    simp [getWeChatErrorMessage, h]
  · intro tok oid content data h
    simp [doSendCustomMessage, h]
  · intro tok oid tid payload data h
    simp [doSendTemplateMessage, h]

/-- C6 witness: the translation lemmas evaluated at the concrete code 40013
(in the table), 99999 (not in the table), and a concrete failed custom send. -/
theorem C6_error_message_witness :
    getWeChatErrorMessage 40013 = "AppID 无效" ∧
    getWeChatErrorMessage 99999 = "微信 API 错误: 99999" ∧
    (doSendCustomMessage "t" "o" "c"
        (.ok { errcode := some 99999, errmsg := some "boom", msgid := none })).error =
      some "WeChat API error: 99999 - boom" :=
  ⟨C6_error_message_translation_amended.1 40013 "AppID 无效" (by decide),
   (C6_error_message_translation_amended.2.1 99999 (by decide)).trans rfl,
   (C6_error_message_translation_amended.2.2.1 "t" "o" "c"
      { errcode := some 99999, errmsg := some "boom", msgid := none }
      (by decide)).trans rfl⟩

/-- Concrete send environment for the C4 counterexample: the first send
fails with the invalid-credential code and the forced refresh fails to yield
a token. -/
def c4FailedRefreshEnv : SendEnv :=
  { tokenFirst := some "token-one"
    tokenRefresh := none
    resp1 := .ok { errcode := some 40001, errmsg := some "invalid credential"
                   msgid := none }
    resp2 := .ok { errcode := some 0, errmsg := some "ok", msgid := some 123 } }

/-- C4 counterexample: the response of the first send carries error code 40001,
yet only one send-endpoint call happens (no retry), because the forced
refresh yields no token; the claim requires exactly one retry, i.e. two send
calls, in this situation. -/
theorem C4_counterexample_no_retry_on_failed_refresh :
    (doSendCustomMessage "token-one" "oid" "hi" c4FailedRefreshEnv.resp1).errorCode =
      some 40001 ∧
    (sendCustomMessage c4FailedRefreshEnv "oid" "hi").refreshes = 1 ∧
    (sendCustomMessage c4FailedRefreshEnv "oid" "hi").sendCalls = 1 ∧
    (sendCustomMessage c4FailedRefreshEnv "oid" "hi").sendCalls ≠ 2 := by
  refine ⟨rfl, rfl, rfl, ?_⟩
  decide

/-- C4 (amended): on a send whose response carries error code 40001 or
42001, both delivery functions perform exactly one forced token refresh and,
when that refresh yields a token, retry the same send exactly once,
returning the retried result; when the refresh yields no token the original
error result is returned without a retry; for any other outcome the result
is returned as-is with no refresh; the send endpoint is never invoked more
than twice. -/
theorem C4_retry_once_amended (env : SendEnv) (openId content tid : String)
    (payload : List (String × String)) :
    ((sendCustomMessage env openId content).sendCalls ≤ 2 ∧
     (env.tokenFirst = none →
       (sendCustomMessage env openId content).sendCalls = 0 ∧
       (sendCustomMessage env openId content).refreshes = 0) ∧
     (∀ tok, env.tokenFirst = some tok →
       (retryCondition (doSendCustomMessage tok openId content env.resp1) = true →
         (sendCustomMessage env openId content).refreshes = 1 ∧
         (∀ newTok, env.tokenRefresh = some newTok →
           (sendCustomMessage env openId content).sendCalls = 2 ∧
           (sendCustomMessage env openId content).result =
             doSendCustomMessage newTok openId content env.resp2) ∧
         (env.tokenRefresh = none →
           (sendCustomMessage env openId content).sendCalls = 1 ∧
           (sendCustomMessage env openId content).result =
             doSendCustomMessage tok openId content env.resp1)) ∧
       (retryCondition (doSendCustomMessage tok openId content env.resp1) = false →
         (sendCustomMessage env openId content).refreshes = 0 ∧
         (sendCustomMessage env openId content).sendCalls = 1 ∧
         (sendCustomMessage env openId content).result =
           doSendCustomMessage tok openId content env.resp1))) ∧
    ((sendTemplateMessage env openId tid payload).sendCalls ≤ 2 ∧
     (env.tokenFirst = none →
       (sendTemplateMessage env openId tid payload).sendCalls = 0 ∧
       (sendTemplateMessage env openId tid payload).refreshes = 0) ∧
     (∀ tok, env.tokenFirst = some tok →
       (retryCondition (doSendTemplateMessage tok openId tid payload env.resp1) = true →
         (sendTemplateMessage env openId tid payload).refreshes = 1 ∧
         (∀ newTok, env.tokenRefresh = some newTok →
           (sendTemplateMessage env openId tid payload).sendCalls = 2 ∧
           (sendTemplateMessage env openId tid payload).result =
             doSendTemplateMessage newTok openId tid payload env.resp2) ∧
         (env.tokenRefresh = none →
           (sendTemplateMessage env openId tid payload).sendCalls = 1 ∧
           (sendTemplateMessage env openId tid payload).result =
             doSendTemplateMessage tok openId tid payload env.resp1)) ∧
       (retryCondition (doSendTemplateMessage tok openId tid payload env.resp1) = false →
         (sendTemplateMessage env openId tid payload).refreshes = 0 ∧
         (sendTemplateMessage env openId tid payload).sendCalls = 1 ∧
         (sendTemplateMessage env openId tid payload).result =
           doSendTemplateMessage tok openId tid payload env.resp1))) := by
  constructor
  · unfold sendCustomMessage
    match hF : env.tokenFirst with
    | none => simp
    | some tok =>
      simp only [hF, Option.some.injEq]
      by_cases hR : retryCondition (doSendCustomMessage tok openId content env.resp1)
      · match hT : env.tokenRefresh with
        | none => simp_all
        | some newTok => simp_all
      · simp_all
  · unfold sendTemplateMessage
    match hF : env.tokenFirst with
    | none => simp
    | some tok =>
      simp only [hF, Option.some.injEq]
      by_cases hR : retryCondition (doSendTemplateMessage tok openId tid payload env.resp1)
      · match hT : env.tokenRefresh with
        | none => simp_all
        | some newTok => simp_all
      · simp_all

/-- Concrete send environment for the C4 witness: a 42001 token-expired
first response, a refresh that yields a fresh token, and a clean retry. -/
def c4RetryEnv : SendEnv :=
  { tokenFirst := some "stale-token"
    tokenRefresh := some "fresh-token"
    resp1 := .ok { errcode := some 42001, errmsg := some "access_token expired"
                   msgid := none }
    resp2 := .ok { errcode := some 0, errmsg := some "ok", msgid := some 77 } }

/-- C4 witness: the amended theorem instantiated on a concrete environment
where the token-expired code triggers exactly one refresh and one retry. -/
theorem C4_retry_once_witness :
    (sendCustomMessage c4RetryEnv "oid" "hello").refreshes = 1 ∧
    (sendCustomMessage c4RetryEnv "oid" "hello").sendCalls = 2 ∧
    (sendCustomMessage c4RetryEnv "oid" "hello").result =
      doSendCustomMessage "fresh-token" "oid" "hello" c4RetryEnv.resp2 := by
  have h := (C4_retry_once_amended c4RetryEnv "oid" "hello" "tid" []).1.2.2
    "stale-token" rfl
  have hcond : retryCondition
      (doSendCustomMessage "stale-token" "oid" "hello" c4RetryEnv.resp1) = true := by
    decide
  have h1 := (h.1 hcond).1
  have h2 := ((h.1 hcond).2.1 "fresh-token" rfl)
  exact ⟨h1, h2.1, h2.2⟩

/-- A successful memory-tier probe inverts to an entry that is strictly
unexpired. -/
theorem cacheHitMem_eq_some (forceRefresh : Bool) (entry : Option TokenCache)
    (now : Int) (c : TokenCache)
    (h : cacheHitMem forceRefresh entry now = some c) :
    entry = some c ∧ c.expiresAt > now := by
  unfold cacheHitMem at h
  by_cases hf : forceRefresh
  · simp [hf] at h
  · cases entry with
    | none => simp [hf] at h
    | some c0 =>
      by_cases hex : c0.expiresAt > now
      · simp only [hf, if_false, hex, if_true] at h
        cases h
        exact ⟨rfl, hex⟩
      · simp [hf, hex] at h

/-- A successful KV-tier probe inverts to a truthy, strictly unexpired
entry. -/
theorem cacheHitKV_eq_some (forceRefresh : Bool) (entry : Option TokenCache)
    (now : Int) (c : TokenCache)
    (h : cacheHitKV forceRefresh entry now = some c) :
    entry = some c ∧ c.accessToken ≠ "" ∧ c.expiresAt > now := by
  unfold cacheHitKV at h
  split at h
  · simp at h
  · split at h
    · split at h
      · cases h
        refine ⟨rfl, ?_⟩
        assumption
      · simp at h
    · simp at h

/-- C7: when getAccessToken reaches the issuance endpoint and the provider
reports a token with lifetime expires_in, the cached expiry is now plus
(expires_in minus 300) seconds (times in ms), the entry is written to the
memory tier and the KV tier, a valid TokenStatus with that expiry is
recorded, and the token is returned; and whenever a token is served from a
cache tier without contacting the endpoint, the serving entry satisfied
expiresAt strictly greater than now. -/
theorem C7_token_issuance_and_expiry
    (channel : Channel) (force : Bool) (now : Int) (st : WeChatState)
    (data : WeChatTokenResponse) (tok : String) (e : Int)
    (hcode : truthyInt data.errcode = false)
    (htok : data.access_token = some tok) (htokNe : tok ≠ "")
    (hexp : data.expires_in = some e) (heNe : e ≠ 0)
    (hfetched : (getAccessToken channel force now (.ok data) st).usedFetch = true) :
    ((getAccessToken channel force now (.ok data) st).token = some tok ∧
     (getAccessToken channel force now (.ok data) st).state.memoryTokenCache
        (getAccessTokenCacheKey channel) =
       some { accessToken := tok, expiresAt := now + (e - 300) * 1000 } ∧
     (getAccessToken channel force now (.ok data) st).state.kvTokenCache
        (getAccessTokenCacheKey channel) =
       some { accessToken := tok, expiresAt := now + (e - 300) * 1000 } ∧
     (getAccessToken channel force now (.ok data) st).state.kvTokenStatus
        (getTokenStatusCacheKey channel.id) =
       some { valid := true, lastRefreshAt := now, lastRefreshSuccess := true
              expiresAt := some (now + (e - 300) * 1000), error := none
              errorCode := none }) ∧
    (∀ (force' : Bool) (now' : Int) (st' : WeChatState)
        (fetch' : Except String WeChatTokenResponse) (t : String),
      (getAccessToken channel force' now' fetch' st').usedFetch = false →
      (getAccessToken channel force' now' fetch' st').token = some t →
      ∃ c : TokenCache,
        (st'.memoryTokenCache (getAccessTokenCacheKey channel) = some c ∨
         st'.kvTokenCache (getAccessTokenCacheKey channel) = some c) ∧
        c.accessToken = t ∧ c.expiresAt > now') := by
  constructor
  · have htr : truthyStr data.access_token = true := by
      rw [htok]; simp [truthyStr, htokNe]
    have hti : truthyInt data.expires_in = true := by
      rw [hexp]; simp [truthyInt, heNe]
    unfold getAccessToken at hfetched ⊢
    by_cases hguard : channel.config.appId = "" ∨ channel.config.appSecret = ""
    · simp [hguard] at hfetched
    · simp only [hguard, if_false] at hfetched ⊢
      cases hmem : cacheHitMem force
          (st.memoryTokenCache (getAccessTokenCacheKey channel)) now with
      | some c => simp [hmem] at hfetched
      | none =>
        simp only [hmem] at hfetched ⊢
        cases hkv : cacheHitKV force
            (st.kvTokenCache (getAccessTokenCacheKey channel)) now with
        | some c => simp [hkv] at hfetched
        | none =>
          simp only [hkv]
          simp only [hcode, htr, hti, htok, hexp]
          simp [truthyStr, truthyInt, htokNe, heNe, setKey]
  · intro force' now' st' fetch' t hnf htok'
    unfold getAccessToken at hnf htok'
    by_cases hguard : channel.config.appId = "" ∨ channel.config.appSecret = ""
    · simp [hguard] at htok'
    · simp only [hguard, if_false] at hnf htok'
      cases hmem : cacheHitMem force'
          (st'.memoryTokenCache (getAccessTokenCacheKey channel)) now' with
      | some c =>
        simp only [hmem] at htok'
        obtain ⟨hentry, hex⟩ := cacheHitMem_eq_some _ _ _ _ hmem
        exact ⟨c, Or.inl hentry, by simpa using htok', hex⟩
      | none =>
        simp only [hmem] at hnf htok'
        cases hkv : cacheHitKV force'
            (st'.kvTokenCache (getAccessTokenCacheKey channel)) now' with
        | some c =>
          simp only [hkv] at htok'
          obtain ⟨hentry, _, hex⟩ := cacheHitKV_eq_some _ _ _ _ hkv
          exact ⟨c, Or.inr hentry, by simpa using htok', hex⟩
        | none =>
          simp only [hkv] at hnf
          cases fetch' with
          | error e0 => simp at hnf
          | ok d =>
            simp only [] at hnf
            split at hnf
            · simp at hnf
            · split at hnf <;> simp at hnf

/-- Concrete channel for the C7 witness. -/
def c7Channel : Channel :=
  { id := "ch_7", name := "Witness", type := "wechat"
    config := { appId := "wx7", appSecret := "sec7", msgToken := none }
    createdAt := "2024-01-01", updatedAt := "2024-01-01" }

/-- Concrete empty cache state for the C7 witness. -/
def c7EmptyState : WeChatState :=
  { memoryTokenCache := fun _ => none
    kvTokenCache := fun _ => none
    kvTokenStatus := fun _ => none }

/-- C7 witness: a concrete issuance with lifetime 7200 s at time 1000 ms
caches expiry 1000 plus 6900 times 1000 in both tiers, records a valid
status and returns the token. -/
theorem C7_token_issuance_witness :
    (getAccessToken c7Channel false 1000
        (.ok { errcode := none, errmsg := none, access_token := some "TOK7"
               expires_in := some 7200 }) c7EmptyState).token = some "TOK7" ∧
    (getAccessToken c7Channel false 1000
        (.ok { errcode := none, errmsg := none, access_token := some "TOK7"
               expires_in := some 7200 }) c7EmptyState).state.memoryTokenCache
        (getAccessTokenCacheKey c7Channel) =
      some { accessToken := "TOK7", expiresAt := 1000 + (7200 - 300) * 1000 } ∧
    (getAccessToken c7Channel false 1000
        (.ok { errcode := none, errmsg := none, access_token := some "TOK7"
               expires_in := some 7200 }) c7EmptyState).state.kvTokenCache
        (getAccessTokenCacheKey c7Channel) =
      some { accessToken := "TOK7", expiresAt := 1000 + (7200 - 300) * 1000 } ∧
    (getAccessToken c7Channel false 1000
        (.ok { errcode := none, errmsg := none, access_token := some "TOK7"
               expires_in := some 7200 }) c7EmptyState).state.kvTokenStatus
        (getTokenStatusCacheKey c7Channel.id) =
      some { valid := true, lastRefreshAt := 1000, lastRefreshSuccess := true
             expiresAt := some (1000 + (7200 - 300) * 1000), error := none
             errorCode := none } :=
  (C7_token_issuance_and_expiry c7Channel false 1000 c7EmptyState
    { errcode := none, errmsg := none, access_token := some "TOK7"
      expires_in := some 7200 }
    "TOK7" 7200 rfl rfl (by decide) rfl (by decide) rfl).1

/-- The delivery-client call emitted by one push delivery step is addressed
to the recipient of that step. -/
theorem deliverOne_call_target (env : PushEnv) (app : App) (channel : Channel)
    (message : PushMessageInput) (r : OpenIdRecord) :
    ((deliverOne env app channel message r).2).target = r.openId := by
  unfold deliverOne
  split
  · cases env.sendTemplate channel r.openId (app.templateId.getD "")
        (pushTemplateData message) <;> rfl
  · cases env.sendCustom channel r.openId (pushContent message) <;> rfl

/-- C2: once key, channel and a nonempty recipient list resolve, subscribe
mode attempts one delivery per bound recipient and returns as many results,
while single mode attempts exactly one delivery, addressed to the first
recipient in the stored listing order, whatever the list length. -/
theorem C2_push_mode_fanout
    (env : PushEnv) (st : MsgStore) (pushId : String) (createdAt : Int)
    (appKey : String) (message : PushMessageInput) (app : App)
    (channel : Channel) (first : OpenIdRecord) (rest : List OpenIdRecord)
    (hApp : env.getByKey appKey = some app)
    (hChan : env.getChannelById app.channelId = some channel)
    (hRecips : env.listByApp app.id = first :: rest) :
    (app.pushMode = PushMode.subscribe →
      (push env st pushId createdAt appKey message).result.results.length =
        (env.listByApp app.id).length ∧
      (push env st pushId createdAt appKey message).calls.length =
        (env.listByApp app.id).length) ∧
    (app.pushMode = PushMode.single →
      (push env st pushId createdAt appKey message).result.results.length = 1 ∧
      (push env st pushId createdAt appKey message).calls.length = 1 ∧
      (push env st pushId createdAt appKey message).calls.map WeChatCall.target =
        [first.openId]) := by
  constructor
  · intro hMode
    unfold push
    simp only [hApp, hChan, hRecips, hMode]
    simp
  · intro hMode
    unfold push
    simp only [hApp, hChan, hRecips, hMode]
    simp [deliverOne_call_target]

/-- A saved message is fetched back under its own id. -/
theorem msgGet_saveMessage_self (st : MsgStore) (m : Message) :
    msgGet (saveMessage st m) m.id = some m := by
  simp [msgGet, saveMessage, setKey]

/-- C3: for a push that passes resolution, success counts the true flags of
the results, failed is total minus success, total is the results length, and
a history record with the pushId as id carrying the full results array is
persisted, so fetching it by pushId reproduces the returned counts. -/
theorem C3_aggregation_and_history
    (env : PushEnv) (st : MsgStore) (pushId : String) (createdAt : Int)
    (appKey : String) (message : PushMessageInput) (app : App)
    (channel : Channel) (first : OpenIdRecord) (rest : List OpenIdRecord)
    (hApp : env.getByKey appKey = some app)
    (hChan : env.getChannelById app.channelId = some channel)
    (hRecips : env.listByApp app.id = first :: rest) :
    (push env st pushId createdAt appKey message).result.success =
      ((push env st pushId createdAt appKey message).result.results.filter
        (fun r => r.success)).length ∧
    (push env st pushId createdAt appKey message).result.failed =
      (push env st pushId createdAt appKey message).result.total -
        (push env st pushId createdAt appKey message).result.success ∧
    (push env st pushId createdAt appKey message).result.total =
      (push env st pushId createdAt appKey message).result.results.length ∧
    (∃ rec0 : Message,
      msgGet (push env st pushId createdAt appKey message).store pushId =
        some rec0 ∧
      rec0.id = pushId ∧
      rec0.results = (push env st pushId createdAt appKey message).result.results ∧
      rec0.results.length = (push env st pushId createdAt appKey message).result.total ∧
      (rec0.results.filter (fun r => r.success)).length =
        (push env st pushId createdAt appKey message).result.success) := by
  unfold push
  simp only [hApp, hChan, hRecips]
  refine ⟨trivial, ?_, by simp, ?_⟩
  · rw [length_filter_not_eq_sub]
    simp
  · exact ⟨_, msgGet_saveMessage_self st _, rfl, rfl, by simp, rfl⟩

/-- A push delivery step with a falsy templateId always emits a custom call
with the pushContent payload. -/
theorem deliverOne_snd_no_templateId (env : PushEnv) (app : App)
    (channel : Channel) (message : PushMessageInput) (r : OpenIdRecord)
    (htid : truthyStr app.templateId = false) :
    (deliverOne env app channel message r).2 =
      WeChatCall.custom channel r.openId (pushContent message) := by
  unfold deliverOne
  have hc : ¬ (app.messageType = MessageType.template ∧
      truthyStr app.templateId = true) := by simp [htid]
  rw [if_neg hc]
  cases env.sendCustom channel r.openId (pushContent message) <;> rfl

/-- C10: a push to a template-type App whose templateId is unset silently
sends custom text messages built from title and desp (title joined with a
truthy desp by a blank line, else title alone) rather than failing; every
emitted delivery-client call is such a custom call, at least one call is
emitted, and no error marker is set on the result. -/
theorem C10_template_without_id_falls_back
    (env : PushEnv) (st : MsgStore) (pushId : String) (createdAt : Int)
    (appKey : String) (message : PushMessageInput) (app : App)
    (channel : Channel) (first : OpenIdRecord) (rest : List OpenIdRecord)
    (hApp : env.getByKey appKey = some app)
    (hChan : env.getChannelById app.channelId = some channel)
    (hRecips : env.listByApp app.id = first :: rest)
    (hmt : app.messageType = MessageType.template)
    (htid : app.templateId = none) :
    (push env st pushId createdAt appKey message).calls ≠ [] ∧
    (∀ c ∈ (push env st pushId createdAt appKey message).calls, ∃ oid,
      c = WeChatCall.custom channel oid
        (if truthyStr message.desp then
          message.title ++ "\n\n" ++ message.desp.getD ""
        else message.title)) ∧
    (push env st pushId createdAt appKey message).result.error = none := by
  have htid' : truthyStr app.templateId = false := by
    rw [htid]; rfl
  unfold push
  simp only [hApp, hChan, hRecips]
  refine ⟨?_, ?_, ?_⟩
  · cases hm : app.pushMode <;> simp [hm]
  · intro c hc
    simp only [List.map_map, List.mem_map] at hc
    obtain ⟨r, _, hr⟩ := hc
    refine ⟨r.openId, ?_⟩
    rw [← hr]
    simpa [pushContent] using
      deliverOne_snd_no_templateId env app channel message r htid'
  · trivial

-- ============ Concrete scenario used by the push-layer witnesses ============

/-- Concrete channel of the witness scenario. -/
def wChannel : Channel :=
  { id := "ch_w", name := "Witness Channel", type := "wechat"
    config := { appId := "wx_w", appSecret := "sec_w", msgToken := none }
    createdAt := "2024-01-01", updatedAt := "2024-01-01" }

/-- Concrete subscribe-mode App of the witness scenario. -/
def wAppSub : App :=
  { id := "app_sub", key := "APK_sub", name := "Sub", channelId := "ch_w"
    pushMode := PushMode.subscribe, messageType := MessageType.normal
    templateId := none }

/-- Concrete single-mode App of the witness scenario. -/
def wAppSingle : App :=
  { id := "app_one", key := "APK_one", name := "One", channelId := "ch_w"
    pushMode := PushMode.single, messageType := MessageType.normal
    templateId := none }

/-- Concrete template-type App with no templateId, for the C10 witness. -/
def wAppTpl : App :=
  { id := "app_tpl", key := "APK_tpl", name := "Tpl", channelId := "ch_w"
    pushMode := PushMode.single, messageType := MessageType.template
    templateId := none }

/-- Three bound recipients, in stored listing order a, b, c. -/
def wRecipA : OpenIdRecord :=
  { id := "oid_1", appId := "app_any", openId := "openid_a", nickname := none }

/-- Second recipient of the witness scenario. -/
def wRecipB : OpenIdRecord :=
  { id := "oid_2", appId := "app_any", openId := "openid_b", nickname := none }

/-- Third recipient of the witness scenario. -/
def wRecipC : OpenIdRecord :=
  { id := "oid_3", appId := "app_any", openId := "openid_c", nickname := none }

/-- Concrete push environment: three Apps on one channel, three recipients
each, and a delivery client that always succeeds. -/
def wEnv : PushEnv :=
  { getByKey := fun k =>
      if k = "APK_sub" then some wAppSub
      else if k = "APK_one" then some wAppSingle
      else if k = "APK_tpl" then some wAppTpl
      else none
    listByApp := fun i =>
      if i = "app_sub" ∨ i = "app_one" ∨ i = "app_tpl" then
        [wRecipA, wRecipB, wRecipC]
      else []
    getChannelById := fun i => if i = "ch_w" then some wChannel else none
    sendCustom := fun _ _ _ =>
      .ok { success := true, msgId := some "42", error := none }
    sendTemplate := fun _ _ _ _ =>
      .ok { success := true, msgId := some "43", error := none } }

/-- The empty message store. -/
def emptyMsgStore : MsgStore :=
  { msgs := fun _ => none, lists := fun _ => none }

/-- C2 witness: on the concrete environment, the subscribe-mode App with
three recipients yields three results and three delivery calls, and the
single-mode App yields one call addressed to recipient a. -/
theorem C2_push_mode_witness :
    (push wEnv emptyMsgStore "pid_2" 0 "APK_sub"
        { title := "T", desp := none }).result.results.length = 3 ∧
    (push wEnv emptyMsgStore "pid_2" 0 "APK_sub"
        { title := "T", desp := none }).calls.length = 3 ∧
    (push wEnv emptyMsgStore "pid_2b" 0 "APK_one"
        { title := "T", desp := none }).calls.length = 1 ∧
    (push wEnv emptyMsgStore "pid_2b" 0 "APK_one"
        { title := "T", desp := none }).calls.map WeChatCall.target =
      ["openid_a"] := by
  have hsub := C2_push_mode_fanout wEnv emptyMsgStore "pid_2" 0 "APK_sub"
    { title := "T", desp := none } wAppSub wChannel wRecipA [wRecipB, wRecipC]
    rfl rfl rfl
  have hone := C2_push_mode_fanout wEnv emptyMsgStore "pid_2b" 0 "APK_one"
    { title := "T", desp := none } wAppSingle wChannel wRecipA [wRecipB, wRecipC]
    rfl rfl rfl
  refine ⟨(hsub.1 rfl).1.trans rfl, (hsub.1 rfl).2.trans rfl,
    (hone.2 rfl).2.1, (hone.2 rfl).2.2⟩

/-- C3 witness: the aggregation identities and the history round trip on the
concrete subscribe-mode push. -/
theorem C3_aggregation_witness :
    (push wEnv emptyMsgStore "pid_3" 0 "APK_sub"
        { title := "T", desp := some "D" }).result.success =
      ((push wEnv emptyMsgStore "pid_3" 0 "APK_sub"
          { title := "T", desp := some "D" }).result.results.filter
        (fun r => r.success)).length ∧
    (push wEnv emptyMsgStore "pid_3" 0 "APK_sub"
        { title := "T", desp := some "D" }).result.failed =
      (push wEnv emptyMsgStore "pid_3" 0 "APK_sub"
          { title := "T", desp := some "D" }).result.total -
        (push wEnv emptyMsgStore "pid_3" 0 "APK_sub"
            { title := "T", desp := some "D" }).result.success ∧
    (∃ rec0 : Message,
      msgGet (push wEnv emptyMsgStore "pid_3" 0 "APK_sub"
          { title := "T", desp := some "D" }).store "pid_3" = some rec0 ∧
      rec0.id = "pid_3") := by
  have h := C3_aggregation_and_history wEnv emptyMsgStore "pid_3" 0 "APK_sub"
    { title := "T", desp := some "D" } wAppSub wChannel wRecipA
    [wRecipB, wRecipC] rfl rfl rfl
  obtain ⟨rec0, hget, hid, _, _, _⟩ := h.2.2.2
  exact ⟨h.1, h.2.1, rec0, hget, hid⟩

/-- C10 witness: pushing to the template-type App with no templateId on the
concrete environment emits only custom calls carrying the joined content. -/
theorem C10_template_fallback_witness :
    (push wEnv emptyMsgStore "pid_10" 0 "APK_tpl"
        { title := "Hello", desp := some "World" }).calls ≠ [] ∧
    (∀ c ∈ (push wEnv emptyMsgStore "pid_10" 0 "APK_tpl"
        { title := "Hello", desp := some "World" }).calls, ∃ oid,
      c = WeChatCall.custom wChannel oid "Hello\n\nWorld") := by
  have h := C10_template_without_id_falls_back wEnv emptyMsgStore "pid_10" 0
    "APK_tpl" { title := "Hello", desp := some "World" } wAppTpl wChannel
    wRecipA [wRecipB, wRecipC] rfl rfl rfl rfl rfl
  refine ⟨h.1, ?_⟩
  intro c hc
  obtain ⟨oid, hoid⟩ := h.2.1 c hc
  exact ⟨oid, by simpa using hoid⟩

-- ============ C1: routing-failure behavior of push (code bug) ============

/-- Environment for the C1 evaluation: no App resolves under any key, and
the delivery client would succeed if it were ever consulted. -/
def c1UnknownKeyEnv : PushEnv :=
  { getByKey := fun _ => none
    listByApp := fun _ => []
    getChannelById := fun _ => none
    sendCustom := fun _ _ _ =>
      .ok { success := true, msgId := some "1", error := none }
    sendTemplate := fun _ _ _ _ =>
      .ok { success := true, msgId := some "1", error := none } }

/-- Environment for the C1 evaluation with a resolvable App that has zero
bound recipients. -/
def c1NoRecipientsEnv : PushEnv :=
  { getByKey := fun k => if k = "APK_empty" then some wAppSub else none
    listByApp := fun _ => []
    getChannelById := fun i => if i = "ch_w" then some wChannel else none
    sendCustom := fun _ _ _ =>
      .ok { success := true, msgId := some "1", error := none }
    sendTemplate := fun _ _ _ _ =>
      .ok { success := true, msgId := some "1", error := none } }

/-- C1 (code evaluated at the failing input): for the unknown key the code
does return a zero-result PushResult with a fresh pushId, writes no history,
makes no delivery-client call and throws nothing -- but its error field is
none, not the machine-readable App-not-found marker the claim (and the
repository property test asserting error equals App not found) requires;
the zero-recipient path likewise returns error none. -/
theorem C1_routing_failure_missing_error_marker :
    (push c1UnknownKeyEnv emptyMsgStore "pid_1" 0 "APK_does_not_exist"
        { title := "T", desp := none }).result =
      { pushId := "pid_1", total := 0, success := 0, failed := 0
        results := [], error := none } ∧
    (push c1UnknownKeyEnv emptyMsgStore "pid_1" 0 "APK_does_not_exist"
        { title := "T", desp := none }).store = emptyMsgStore ∧
    (push c1UnknownKeyEnv emptyMsgStore "pid_1" 0 "APK_does_not_exist"
        { title := "T", desp := none }).calls = [] ∧
    (push c1UnknownKeyEnv emptyMsgStore "pid_1" 0 "APK_does_not_exist"
        { title := "T", desp := none }).result.error ≠ some "App not found" ∧
    (push c1NoRecipientsEnv emptyMsgStore "pid_1b" 0 "APK_empty"
        { title := "T", desp := none }).result =
      { pushId := "pid_1b", total := 0, success := 0, failed := 0
        results := [], error := none } ∧
    (push c1NoRecipientsEnv emptyMsgStore "pid_1b" 0 "APK_empty"
        { title := "T", desp := none }).store = emptyMsgStore ∧
    (push c1NoRecipientsEnv emptyMsgStore "pid_1b" 0 "APK_empty"
        { title := "T", desp := none }).calls = [] := by
  refine ⟨rfl, rfl, rfl, ?_, rfl, rfl, rfl⟩
  intro h
  simp [push, c1UnknownKeyEnv, zeroPushResult] at h

/-- Deleting an existing record only clears that message-body key. -/
theorem msgDelete_eq_of_some (st : MsgStore) (id : String) (m : Message)
    (h : st.msgs id = some m) :
    msgDelete st id =
      (true, { st with msgs := fun k => if k = id then none else st.msgs k }) := by
  simp [msgDelete, msgGet, h]

/-- C9: delete on a missing id reports false and writes nothing; on an
existing id it removes only the message body, leaving every other body and
every list index untouched, so the id stays in all indexes and a later
fast-path list read keeps its total while silently dropping the record whose
fetch now returns null. -/
theorem C9_delete_only_message_body (st : MsgStore) (id : String) :
    (st.msgs id = none → msgDelete st id = (false, st)) ∧
    (∀ m, st.msgs id = some m →
      (msgDelete st id).1 = true ∧
      (msgDelete st id).2.msgs id = none ∧
      (∀ j, j ≠ id → (msgDelete st id).2.msgs j = st.msgs j) ∧
      (msgDelete st id).2.lists = st.lists ∧
      (∀ o : ListOptions, fastPathCond o = true →
        (msgList (msgDelete st id).2 o).total = (msgList st o).total ∧
        (∀ x, x ∈ (msgList (msgDelete st id).2 o).messages →
          x ∈ (msgList st o).messages))) := by
  constructor
  · intro h
    simp [msgDelete, msgGet, h]
  · intro m h
    rw [msgDelete_eq_of_some st id m h]
    refine ⟨rfl, by simp, ?_, rfl, ?_⟩
    · intro j hj
      simp [hj]
    · intro o hfp
      constructor
      · simp [msgList, hfp, selectIds]
      · intro x hx
        simp only [msgList, hfp, if_true] at hx ⊢
        refine mem_filterMap_of_le ?_ x hx
        intro a y hay
        by_cases ha : a = id
        · simp [ha] at hay
        · simpa [ha] using hay

/-- Concrete store for the C9 witness: one message under key m1, listed in
the global index together with the never-written id ghost. -/
def c9Message : Message :=
  { id := "m1", direction := "outbound", type := "push"
    channelId := some "ch_w", appId := some "app_sub", openId := none
    title := "T", desp := none, results := [], createdAt := 5 }

/-- Store holding c9Message and a global index listing it. -/
def c9Store : MsgStore :=
  { msgs := fun k => if k = "m1" then some c9Message else none
    lists := fun k => if k = "msg_list" then some ["m1"] else none }

/-- Plain global-list read options for the C9 witness. -/
def c9Options : ListOptions :=
  { page := 1, pageSize := 20, channelId := none, appId := none
    openId := none, direction := none, startDate := none, endDate := none }

/-- C9 witness: deleting m1 from the concrete store reports true, clears the
body, keeps the global index and the fast-path total, and a repeat delete of
a missing id reports false without a write. -/
theorem C9_delete_witness :
    msgDelete c9Store "m_missing" = (false, c9Store) ∧
    (msgDelete c9Store "m1").1 = true ∧
    (msgDelete c9Store "m1").2.msgs "m1" = none ∧
    (msgDelete c9Store "m1").2.lists = c9Store.lists ∧
    (msgList (msgDelete c9Store "m1").2 c9Options).total =
      (msgList c9Store c9Options).total := by
  have hmain := C9_delete_only_message_body c9Store "m1"
  have hsome := hmain.2 c9Message (by decide)
  have hfp : fastPathCond c9Options = true := by decide
  exact ⟨(C9_delete_only_message_body c9Store "m_missing").1 (by decide),
    hsome.1, hsome.2.1, hsome.2.2.2.1, (hsome.2.2.2.2 c9Options hfp).1⟩

-- ============ C5: webhook method handling ============

/-- Push oracle that always reports a successful single delivery. -/
def c5AlwaysOk : String → String → Option String → SendKeyPushResult :=
  fun _ _ _ =>
    { pushId := "pid_w", success := true, msgId := some "mid", error := none }

/-- C5 counterexample: on the same app key and title, the GET request is
answered with the PushResult-derived success envelope while the POST request
is rejected with 405 and a null data error envelope, so GET and POST are not
equivalent as the claim requires. -/
theorem C5_counterexample_post_rejected :
    onRequest c5AlwaysOk
        { method := "GET", pathname := "/APK123.send"
          queryTitle := some "Hello", queryDesp := none
          bodyTitle := none, bodyDesp := none } =
      WebhookResponse.json 200 (some 0) "success"
        (some { pushId := "pid_w"
                results := [{ success := true, msgId := some "mid" }] }) ∧
    onRequest c5AlwaysOk
        { method := "POST", pathname := "/APK123.send"
          queryTitle := some "Hello", queryDesp := none
          bodyTitle := some "Hello", bodyDesp := none } =
      WebhookResponse.json 405 (some 40002)
        "Method not allowed. Use GET with query params." none ∧
    onRequest c5AlwaysOk
        { method := "POST", pathname := "/APK123.send"
          queryTitle := some "Hello", queryDesp := none
          bodyTitle := some "Hello", bodyDesp := none } ≠
      onRequest c5AlwaysOk
        { method := "GET", pathname := "/APK123.send"
          queryTitle := some "Hello", queryDesp := none
          bodyTitle := none, bodyDesp := none } := by
  refine ⟨?_, rfl, ?_⟩ <;> decide

/-- C5 (amended): the webhook route accepts only GET; a GET whose path
yields a send key, whose title is truthy and whose push succeeds is answered
with the success envelope carrying pushId and one success-msgId result,
while every non-GET, non-OPTIONS method, POST with a JSON body included, is
rejected with HTTP 405 and a null-data error envelope. -/
theorem C5_webhook_get_only_amended
    (pushFn : String → String → Option String → SendKeyPushResult)
    (req : HttpRequest) :
    (req.method ≠ "GET" → req.method ≠ "OPTIONS" →
      onRequest pushFn req =
        WebhookResponse.json 405 (some errINVALID_PARAM)
          "Method not allowed. Use GET with query params." none) ∧
    (∀ k t, req.method = "GET" → extractSendKey req.pathname = some k →
      req.queryTitle = some t → t ≠ "" →
      (pushFn k t req.queryDesp).success = true →
      onRequest pushFn req =
        WebhookResponse.json 200 (some 0) "success"
          (some { pushId := (pushFn k t req.queryDesp).pushId
                  results := [{ success := true
                                msgId := (pushFn k t req.queryDesp).msgId }] })) := by
  constructor
  · intro hng hno
    unfold onRequest
    rw [if_neg hno, if_pos hng]
    rfl
  · intro k t hm hk ht htne hsucc
    unfold onRequest
    rw [hm]
    simp only [reduceIte, ne_eq, not_true_eq_false, if_false, hk, ht]
    have htt : truthyStr (some t) = true := by simp [truthyStr, htne]
    simp only [htt, Option.getD_some, hsucc, not_true_eq_false, if_false]
    rw [if_neg (by decide)]

/-- C5 witness: the amended theorem instantiated on the concrete always-ok
oracle, a GET and a POST of the same payload. -/
theorem C5_webhook_witness :
    onRequest c5AlwaysOk
        { method := "POST", pathname := "/APK123.send"
          queryTitle := some "Hello", queryDesp := none
          bodyTitle := some "Hello", bodyDesp := none } =
      WebhookResponse.json 405 (some errINVALID_PARAM)
        "Method not allowed. Use GET with query params." none ∧
    onRequest c5AlwaysOk
        { method := "GET", pathname := "/APK123.send"
          queryTitle := some "Hello", queryDesp := none
          bodyTitle := none, bodyDesp := none } =
      WebhookResponse.json 200 (some 0) "success"
        (some { pushId := "pid_w"
                results := [{ success := true, msgId := some "mid" }] }) :=
  ⟨(C5_webhook_get_only_amended c5AlwaysOk
      { method := "POST", pathname := "/APK123.send"
        queryTitle := some "Hello", queryDesp := none
        bodyTitle := some "Hello", bodyDesp := none }).1
      (by decide) (by decide),
   (C5_webhook_get_only_amended c5AlwaysOk
      { method := "GET", pathname := "/APK123.send"
        queryTitle := some "Hello", queryDesp := none
        bodyTitle := none, bodyDesp := none }).2
      "APK123" "Hello" rfl (by decide) rfl (by decide) rfl⟩

end Pusher
